import Mathlib

/-!
Verification development for the Transaction Categorization & Merge Engine
(`Scripts/merge_and_categorize.py`).

Modelling conventions:
* Python strings are modelled as `List Char` (`Str`); string literals enter the
  model via `String.data`.  `str.strip` / `str.lower` / substring tests are
  modelled by `pyStrip` / `pyLower` / `containsSub` over `List Char`.
* Python floats (monetary amounts, probabilities) are modelled as `ℚ`.
* `list.sort` / `sorted` (Timsort, a stable sort) is modelled by the stable
  `List.insertionSort`; for a total, transitive, reflexive comparison a stable
  sort's output is determined, so the two agree extensionally.
* Library calls with no algorithmic content of their own in this program are
  abstracted into a semantics record `Sem`: `re.search` (`search`), `float`
  literal parsing (`parseFloat`), `datetime.strptime(name, "%B %Y")`
  (`parseMonth`) and the sklearn vectorizer+LogisticRegression fit (`train`).
  A fitted model is an opaque `MLModel`, whose `predict` returns the top class
  and its probability (abstracting `transform`/`predict_proba`/`argmax`).
* File-system reads are modelled by passing the parsed file contents in an
  environment record `Env`; I/O failures handled by `continue`/`except` in the
  script are outside the model.
-/

abbrev Str := List Char

/-- Coerce a Lean string literal into the model representation. -/
def str (s : String) : Str := s.data

/-- Model of Python `str.strip()`: drop leading and trailing whitespace. -/
def pyStrip (s : Str) : Str :=
  ((s.dropWhile Char.isWhitespace).reverse.dropWhile Char.isWhitespace).reverse

/-- Model of Python `str.lower()`. -/
def pyLower (s : Str) : Str := s.map Char.toLower

/-- Model of Python `needle in hay` (substring containment). -/
def containsSub (needle hay : Str) : Bool := decide (needle <:+: hay)

/-- Python truthiness test `not (s and s.strip())` used on descriptions. -/
def isBlank (s : Str) : Bool := decide (pyStrip s = [])

/-- Dictionary lookup `d[k]` for an association-list model of a dict
(first binding wins; the loaders below keep keys distinct). -/
def lookupD (m : List (Str × Str)) (k : Str) : Str :=
  match m.find? (fun kv => kv.1 = k) with
  | some kv => kv.2
  | none => []

/-- Python `sorted(keys, key=len, reverse=True)`: stable sort, longest first. -/
def sortByLenDesc (keys : List Str) : List Str :=
  List.insertionSort (fun a b => b.length ≤ a.length) keys

/- ------------------------------------------------------------------
   ML configuration (`MIN_TRAINING_SAMPLES`, `_ml_threshold`)
   ------------------------------------------------------------------ -/

def MIN_TRAINING_SAMPLES : ℕ := 10

/-- Model of `_ml_threshold`: `raw = os.environ.get("ML_CONFIDENCE_THRESHOLD",
"0.70")`, then `float(raw)` clamped to `[0,1]`, with `0.70` on `ValueError`.
`parsed` is the result of `float(raw)`: when the variable is unset, `raw` is
the literal `"0.70"`, i.e. `parsed = some (7/10)`; `none` models a
`ValueError` on a malformed setting. -/
def mlThreshold (parsed : Option ℚ) : ℚ :=
  match parsed with
  | some v => max 0 (min 1 v)
  | none => 7/10

/- ------------------------------------------------------------------
   TransactionClassifier constants and built-in rule tables
   ------------------------------------------------------------------ -/

def SOURCE_MAPPING : Str := str "mapping"
def SOURCE_REGEX : Str := str "regex"
def SOURCE_ML : Str := str "ml"
def SOURCE_UNCATEGORIZED : Str := str "uncategorized"

/-- The literal `"Uncategorized"` category. -/
def UNCATEGORIZED : Str := str "Uncategorized"

/-- `TRANSFER_FALLBACK`: fixed fallback pattern applied after the rule list. -/
def TRANSFER_FALLBACK : Str × Str :=
  (str "(?i)e-transfer|internet transfer\\s|interac\\s+transfer",
   str "Transfers & Payments")

/-- `_BUILTIN_CATEGORY_RULES` (patterns kept as the literal regex text;
their matching semantics live in `Sem.search`). -/
def BUILTIN_CATEGORY_RULES : List (Str × Str) :=
  [ (str "(?i)electronic funds transfer pay windreg|pay windreg|payroll", str "Work Income"),
    (str "(?i)payment thank you|paiemen t merci|internet transfer 0\x7b6,\x7d|interac transfer|e-transfer|internet banking", str "Transfers & Payments"),
    (str "(?i)rogers \\*|rogers\\*\\*\\*\\*\\*\\*|apple\\.com|cursor|paypal", str "Subscriptions & Bills"),
    (str "(?i)enwin|university of windsor|bill pay", str "Utilities & Bills"),
    (str "(?i)tim hortons|starbucks|mcdonald|presotea|taco bell|subway|pizza pizza|chipotle|burger king|new york fries|dollarama|miniso", str "Food & Drink"),
    (str "(?i)athidhi|janpath|spago|chilly bliss|paan banaras|restaurant", str "Restaurants"),
    (str "(?i)instacart|costco|wal-mart|amazon|amzn|temu", str "Shopping & Groceries"),
    (str "(?i)uber|lyft|vets cab|presto fare|pearson parking|michigan flyer|spirit air|air can", str "Transport & Travel"),
    (str "(?i)sport chek|cinplex|vue", str "Entertainment"),
    (str "(?i)shell|gas|petrol", str "Gas & Auto"),
    (str "(?i)interest|service charge|fee|branch transaction|automated banking machine", str "Fees & Interest"),
    (str "(?i)chiropractic", str "Health"),
    (str "(?i)shoppers drug|pharmacy", str "Pharmacy"),
    (str "(?i)sephora", str "Personal Care") ]

/-- `_BUILTIN_ALL_CATEGORIES`. -/
def BUILTIN_ALL_CATEGORIES : List Str :=
  [ str "Work Income", str "Transfers & Payments", str "Shopping & Groceries",
    str "Food & Drink", str "Restaurants", str "Transport & Travel",
    str "Subscriptions & Bills", str "Utilities & Bills", str "Entertainment",
    str "Fees & Interest", str "Health", str "Pharmacy", str "Personal Care",
    str "Gas & Auto", str "Uncategorized" ]

/- ------------------------------------------------------------------
   TransactionClassifier
   ------------------------------------------------------------------ -/

/-- Opaque model of a fitted `TfidfVectorizer` + `LogisticRegression` pair:
`predict d` returns `(classes_[proba.argmax()], proba.max())`, the top class
and its probability for description `d`. -/
structure MLModel where
  predict : Str → Str × ℚ

/-- State of a `TransactionClassifier` after `fit()`.  `search p d` models
`re.search(p, d) is not None`; `thresholdParsed` models the parsed
`ML_CONFIDENCE_THRESHOLD` environment value (see `mlThreshold`);
`mlModel = none` models `_ml_trained == False` (too little data, fewer than
two classes, import or fit failure). -/
structure Classifier where
  customMapping : List (Str × Str)
  mappingKeysSorted : List Str
  regexRules : List (Str × Str)
  allCategories : List Str
  mlModel : Option MLModel
  thresholdParsed : Option ℚ
  search : Str → Str → Bool

/-- The `for key in self._mapping_keys_sorted` loop of `categorize` (step 1):
first key contained in the description whose mapped category is non-empty and
not `"Uncategorized"`; a key failing the category test falls through to the
next key, exactly like the `if`-guarded `return` in the loop body. -/
def mappingFirstMatch (mapping : List (Str × Str)) (keys : List Str) (description : Str) : Option Str :=
  match keys with
  | [] => none
  | k :: ks =>
    if containsSub k description || decide (description = k) then
      let cat := lookupD mapping k
      if cat ≠ [] ∧ cat ≠ UNCATEGORIZED then some cat
      else mappingFirstMatch mapping ks description
    else mappingFirstMatch mapping ks description

/-- Model of `TransactionClassifier._regex_category`. -/
def regexCategory (c : Classifier) (description : Str) : Str :=
  if isBlank description then UNCATEGORIZED
  else
    match c.regexRules.find? (fun pc => c.search pc.1 description) with
    | some pc => pc.2
    | none =>
      if c.search TRANSFER_FALLBACK.1 description then TRANSFER_FALLBACK.2
      else UNCATEGORIZED

/-- Model of `TransactionClassifier._predict_ml` (the accepted-prediction
part): a trained model's top prediction is returned iff its probability
strictly exceeds the threshold and the label lies in `_all_categories`. -/
def predictML (c : Classifier) (description : Str) : Option (Str × ℚ) :=
  match c.mlModel with
  | none => none
  | some m =>
    let pc := m.predict description
    if pc.2 > mlThreshold c.thresholdParsed ∧ pc.1 ∈ c.allCategories then some pc
    else none

/-- Model of `TransactionClassifier.categorize`: the 3-step waterfall,
returning `(category, source)`.  The per-source counters incremented inside
the Python method are recovered in `runMerge` by counting the returned
sources, which is equivalent because `categorize` is called once per row. -/
def categorize (c : Classifier) (description : Str) : Str × Str :=
  if isBlank description then (UNCATEGORIZED, SOURCE_UNCATEGORIZED)
  else
    match mappingFirstMatch c.customMapping c.mappingKeysSorted description with
    | some cat => (cat, SOURCE_MAPPING)
    | none =>
      let cat := regexCategory c description
      if cat ≠ UNCATEGORIZED then (cat, SOURCE_REGEX)
      else
        match predictML c description with
        | some pc => (pc.1, SOURCE_ML)
        | none => (UNCATEGORIZED, SOURCE_UNCATEGORIZED)

/- ------------------------------------------------------------------
   Training-corpus builder and model cache
   ------------------------------------------------------------------ -/

/-- One month folder visible to `_load_historical_training_data`: its name and
the `(Description, Category)` cells of its `merged.csv`.  Folders without a
`merged.csv` (or that are not directories) simply do not appear in this list;
an `OSError` while reading is likewise outside the model (the folder is
skipped either way). -/
structure HistFolder where
  name : Str
  rows : List (Str × Str)
deriving DecidableEq

/-- Model of `TransactionClassifier._load_historical_training_data`:
keep folders other than the current month whose name parses as `"%B %Y"`,
sort them newest-first (stable), take the first three, and collect the
non-blank, non-`"Uncategorized"` `(Description, Category)` pairs. -/
def loadHistoricalTrainingData (parseMonth : Str → Option ℤ) (current : Str)
    (folders : List HistFolder) : List (Str × Str) :=
  let dated := folders.filterMap (fun f =>
    if f.name = current then none
    else
      match parseMonth f.name with
      | some dt => some (dt, f)
      | none => none)
  let newestFirst := List.insertionSort (fun a b : ℤ × HistFolder => b.1 ≤ a.1) dated
  (newestFirst.take 3).flatMap (fun df =>
    df.2.rows.filterMap (fun rc =>
      let desc := pyStrip rc.1
      let cat := pyStrip rc.2
      if desc ≠ [] ∧ cat ≠ [] ∧ cat ≠ UNCATEGORIZED then some (desc, cat) else none))

/-- The historical-append loop of `_build_training_data`: append `(desc, cat)`
pairs whose description is not yet `seen` and whose category is not
`"Uncategorized"`, extending `seen` as it goes. -/
def addHistorical (seen : List Str) : List (Str × Str) → List (Str × Str)
  | [] => []
  | dc :: rest =>
    if dc.1 ∉ seen ∧ dc.2 ≠ UNCATEGORIZED then dc :: addHistorical (dc.1 :: seen) rest
    else addHistorical seen rest

/-- Model of `TransactionClassifier._build_training_data`: mapping entries
first (with their guard re-checked, as in the source), then historical pairs
deduplicated by description with mapping entries taking precedence. -/
def buildTrainingData (mapping : List (Str × Str)) (historical : List (Str × Str)) :
    List (Str × Str) :=
  let pairs := mapping.filter (fun kc => kc.2 ≠ [] ∧ kc.2 ≠ UNCATEGORIZED)
  pairs ++ addHistorical (pairs.map (fun kc => kc.1)) historical

/-- Model of `TransactionClassifier._load_custom_mapping`: strip keys and
values and keep only entries whose stripped value is non-empty and not
`"uncategorized"` (case-insensitively).  The dict-comprehension collapse of
duplicate stripped keys is not modelled; keys are assumed distinct. -/
def loadCustomMapping (data : List (Str × Str)) : List (Str × Str) :=
  (data.map (fun kv => (pyStrip kv.1, pyStrip kv.2))).filter
    (fun kv => kv.2 ≠ [] ∧ pyLower kv.2 ≠ str "uncategorized")

/-- Lexicographic order on training pairs: Python tuple comparison, as used
by `sorted(training)` in `_training_data_hash`. -/
def pairLe (a b : Str × Str) : Prop := a.1 < b.1 ∨ (a.1 = b.1 ∧ a.2 ≤ b.2)

instance : DecidableRel pairLe := fun a b => by unfold pairLe; infer_instance

/-- Model of `TransactionClassifier._training_data_hash`: the source computes
`sha256(json.dumps(sorted(training)))[:16]`.  JSON serialization of distinct
sorted lists is distinct, so the canonical input to the hash is the sorted
list itself; the truncated SHA-256 digest is modelled as that canonical value
(i.e. the digest is idealized as collision-free). -/
def trainingFingerprint (training : List (Str × Str)) : List (Str × Str) :=
  List.insertionSort pairLe training

/-- The validated shape of a cached `.ml_cache/classifier.pkl` artifact: a
dict with a `"hash"` and the pickled vectorizer+model pair. -/
structure CacheArtifact where
  storedFingerprint : List (Str × Str)
  vectorizerModel : MLModel

/-- Cache file state: `none` = no cache file; `some none` = the file exists
but reading or validating it fails (corrupt pickle, not a dict, missing
keys); `some (some a)` = a well-shaped artifact `a`. -/
abbrev CacheState := Option (Option CacheArtifact)

/-- Result of the ML part of `fit`: the model to use (if any) and the cache
file state after the call. -/
structure FitResult where
  mlModel : Option MLModel
  cacheAfter : CacheState

/-- Number of distinct labels, `len(sorted(set(y)))`. -/
def distinctClasses (training : List (Str × Str)) : ℕ :=
  ((training.map (fun kc => kc.2)).dedup).length

/-- Model of the ML part of `TransactionClassifier.fit`: skip ML entirely on
too few samples or fewer than two classes; reuse a well-shaped cached
artifact whose stored fingerprint equals the current one; on any other cache
state (no file, unreadable artifact, fingerprint mismatch) train afresh and
overwrite the cache.  `train` models the sklearn vectorize+fit call on the
training pairs (in their built order); a fit exception (which would leave ML
disabled) is outside the model since `train` is total here. -/
def fitML (train : List (Str × Str) → MLModel) (training : List (Str × Str))
    (cache : CacheState) : FitResult :=
  if training.length < MIN_TRAINING_SAMPLES then ⟨none, cache⟩
  else if distinctClasses training < 2 then ⟨none, cache⟩
  else
    match cache with
    | some (some a) =>
      if a.storedFingerprint = trainingFingerprint training then
        ⟨some a.vectorizerModel, cache⟩
      else
        ⟨some (train training), some (some ⟨trainingFingerprint training, train training⟩)⟩
    | _ =>
      ⟨some (train training), some (some ⟨trainingFingerprint training, train training⟩)⟩

/- ------------------------------------------------------------------
   CSV row reading (`parse_amount`, `read_bank_csv`)
   ------------------------------------------------------------------ -/

/-- Model of `parse_amount`: blank strings and `float` parse failures give
`0.0`; otherwise `float(s.strip().replace(",", ""))`. -/
def parseAmount (parseFloat : Str → Option ℚ) (s : Str) : ℚ :=
  if pyStrip s = [] then 0
  else
    match parseFloat ((pyStrip s).filter (fun c => c ≠ ',')) with
    | some v => v
    | none => 0

/-- The configured column mapping (date/description/debit/credit/account
indices) from `_load_bank_profile`; the CIBC default is `(0,1,2,3,4)`. -/
structure Cols where
  dateCol : ℕ
  descCol : ℕ
  debitCol : ℕ
  creditCol : ℕ
  accountCol : ℕ
deriving DecidableEq

def defaultCols : Cols := ⟨0, 1, 2, 3, 4⟩

/-- One raw transaction record as produced by `read_bank_csv`. -/
structure Row where
  date : Str
  description : Str
  debit : ℚ
  credit : ℚ
  amount : ℚ
  account : Str
  source : Str
deriving DecidableEq

/-- Model of `read_bank_csv`: rows with `len(row) <= max(desc_col, date_col)`
are skipped (`continue`); otherwise date/description/account are stripped,
debit/credit parsed (with `""` when the column is beyond the row's length)
and `amount = debit if debit else -credit`. -/
def readBankCsv (parseFloat : Str → Option ℚ) (sourceName : Str) (cols : Cols)
    (rows : List (List Str)) : List Row :=
  rows.filterMap (fun row =>
    if row.length ≤ max cols.descCol cols.dateCol then none
    else
      let debit := parseAmount parseFloat
        (if cols.debitCol < row.length then row.getD cols.debitCol [] else [])
      let credit := parseAmount parseFloat
        (if cols.creditCol < row.length then row.getD cols.creditCol [] else [])
      some { date := pyStrip (row.getD cols.dateCol [])
             description := pyStrip (row.getD cols.descCol [])
             debit := debit
             credit := credit
             amount := if debit ≠ 0 then debit else -credit
             account := pyStrip (if cols.accountCol < row.length then row.getD cols.accountCol [] else [])
             source := sourceName })

/- ------------------------------------------------------------------
   Merge & dedup engine (`main`, lines 434-463)
   ------------------------------------------------------------------ -/

/-- Dedup key `(r["Date"], r["Description"], r["Amount"])`. -/
abbrev DedupKey := Str × Str × ℚ

def rowKey (r : Row) : DedupKey := (r.date, r.description, r.amount)

/-- Model of the ignore-list loader: `[str(s).strip().lower() for s in data if s]`. -/
def loadIgnoreList (data : List Str) : List Str :=
  (data.filter (fun s => s ≠ [])).map (fun s => pyLower (pyStrip s))

/-- Model of `should_ignore`: blank descriptions are never ignored; otherwise
the lowercased stripped description is tested for each ignore phrase as a
substring. -/
def shouldIgnore (ignoreList : List Str) (description : Str) : Bool :=
  if isBlank description then false
  else ignoreList.any (fun ign => containsSub ign (pyLower (pyStrip description)))

/-- Mutable merge-loop state of `main`: retained rows, the key → file-index
map (`key_to_files`, a total function with `[]` for absent keys, which makes
`setdefault(key, set())` the identity), the per-file `seen_in_file` set, and
the running counters. -/
structure MergeState where
  allRows : List Row
  keyToFiles : DedupKey → List ℕ
  seenInFile : List DedupKey
  duplicateCount : ℕ
  totalCredits : ℚ
  totalDebits : ℚ
  ignoredCount : ℕ

def initMergeState : MergeState :=
  { allRows := [], keyToFiles := fun _ => [], seenInFile := [],
    duplicateCount := 0, totalCredits := 0, totalDebits := 0, ignoredCount := 0 }

/-- One iteration of the `for r in rows` loop of `main`.  The sequential
Python mutations are flattened into one record update per branch: ignored
rows only bump `ignored_count`; all other rows add to the totals first, then
either hit `seen_in_file` (within-file duplicate), or are recorded in
`seen_in_file` and either hit a key claimed by another file (cross-file
duplicate) or claim the key (`files_with.add(file_idx)`, a set insertion) and
are retained. -/
def processRow (ignoreList : List Str) (fileIdx : ℕ) (st : MergeState) (r : Row) :
    MergeState :=
  if shouldIgnore ignoreList r.description then
    { st with ignoredCount := st.ignoredCount + 1 }
  else if rowKey r ∈ st.seenInFile then
    { st with totalCredits := st.totalCredits + r.credit,
              totalDebits := st.totalDebits + r.debit,
              duplicateCount := st.duplicateCount + 1 }
  else if st.keyToFiles (rowKey r) ≠ [] ∧ fileIdx ∉ st.keyToFiles (rowKey r) then
    { st with totalCredits := st.totalCredits + r.credit,
              totalDebits := st.totalDebits + r.debit,
              seenInFile := rowKey r :: st.seenInFile,
              duplicateCount := st.duplicateCount + 1 }
  else
    { st with totalCredits := st.totalCredits + r.credit,
              totalDebits := st.totalDebits + r.debit,
              seenInFile := rowKey r :: st.seenInFile,
              keyToFiles := fun k =>
                if k = rowKey r then
                  if fileIdx ∈ st.keyToFiles (rowKey r) then st.keyToFiles (rowKey r)
                  else fileIdx :: st.keyToFiles (rowKey r)
                else st.keyToFiles k,
              allRows := st.allRows ++ [r] }

/-- One iteration of the `for file_idx, csv_path in enumerate(csv_files)`
loop: `seen_in_file` starts empty for each file. -/
def processFile (ignoreList : List Str) (fileIdx : ℕ) (st : MergeState)
    (rows : List Row) : MergeState :=
  rows.foldl (processRow ignoreList fileIdx) { st with seenInFile := [] }

/-- The file loop of `main`, with explicit `enumerate` index. -/
def mergeFilesFrom (ignoreList : List Str) : ℕ → MergeState → List (List Row) → MergeState
  | _, st, [] => st
  | fileIdx, st, rows :: rest =>
    mergeFilesFrom ignoreList (fileIdx + 1) (processFile ignoreList fileIdx st rows) rest

def mergeFiles (ignoreList : List Str) (files : List (List Row)) : MergeState :=
  mergeFilesFrom ignoreList 0 initMergeState files

/-- Sort key order of `all_rows.sort(key=lambda r: (r["Date"], r["Description"]))`:
lexicographic on the (date, description) string pair. -/
def rowLe (a b : Row) : Prop :=
  a.date < b.date ∨ (a.date = b.date ∧ a.description ≤ b.description)

instance : DecidableRel rowLe := fun a b => by unfold rowLe; infer_instance

/-- Model of `all_rows.sort(...)` (stable sort by the (date, description) key). -/
def sortRows (rows : List Row) : List Row := List.insertionSort rowLe rows

/-- Model of the vendor-aliases loader:
`{k.strip(): str(v).strip() for k, v in data.items() if k and v}`. -/
def loadVendorAliases (data : List (Str × Str)) : List (Str × Str) :=
  (data.filter (fun kv => kv.1 ≠ [] ∧ kv.2 ≠ [])).map
    (fun kv => (pyStrip kv.1, pyStrip kv.2))

/-- Model of `normalize_description`: first alias key (longest first)
contained in the description replaces the whole description. -/
def normalizeDescription (aliasKeysSorted : List Str) (aliases : List (Str × Str))
    (desc : Str) : Str :=
  if isBlank desc then desc
  else
    match aliasKeysSorted.find? (fun k => containsSub k desc) with
    | some k => lookupD aliases k
    | none => desc

/- ------------------------------------------------------------------
   Whole-run pipeline (`main`)
   ------------------------------------------------------------------ -/

/-- Semantics of the external library calls the script makes (see the file
header): `search p d` is `re.search(p, d) is not None`; `parseFloat` is
`float(...)` on a stripped, comma-free string (`none` = `ValueError`);
`parseMonth` is `datetime.strptime(name, "%B %Y")` mapped to a comparable
ordinal (`none` = `ValueError`); `train` is the sklearn vectorize+fit step on
the assembled training pairs. -/
structure Sem where
  search : Str → Str → Bool
  parseFloat : Str → Option ℚ
  parseMonth : Str → Option ℤ
  train : List (Str × Str) → MLModel

/-- Inputs of one `main` run: the month folder name; `sorted(glob(pattern))`
export files as `(stem, parsed csv rows)`; the loaded configuration tables;
the parsed threshold setting; the other month folders visible to the training
builder; and the cache file state. -/
structure Env where
  currentFolder : Str
  filePattern : Str
  files : List (Str × List (List Str))
  cols : Cols
  mappingData : List (Str × Str)
  regexRules : List (Str × Str)
  allCategories : List Str
  ignoreData : List Str
  aliasData : List (Str × Str)
  thresholdParsed : Option ℚ
  histFolders : List HistFolder
  cache : CacheState

/-- `TransactionClassifier(...)` followed by `classifier.fit()`: load the
custom mapping, build the training corpus, fit or reuse the ML model, and
return the classifier together with the cache state left on disk. -/
def mkClassifier (sem : Sem) (env : Env) : Classifier × CacheState :=
  let mapping := loadCustomMapping env.mappingData
  let training := buildTrainingData mapping
    (loadHistoricalTrainingData sem.parseMonth env.currentFolder env.histFolders)
  let fr := fitML sem.train training env.cache
  ({ customMapping := mapping
     mappingKeysSorted := sortByLenDesc (mapping.map (fun kv => kv.1))
     regexRules := env.regexRules
     allCategories := env.allCategories
     mlModel := fr.mlModel
     thresholdParsed := env.thresholdParsed
     search := sem.search }, fr.cacheAfter)

/-- The per-file row lists fed into the merge loop. -/
def fileRowsOf (sem : Sem) (env : Env) : List (List Row) :=
  env.files.map (fun f => readBankCsv sem.parseFloat f.1 env.cols f.2)

/-- Merge-loop state after all files are processed. -/
def mergedStateOf (sem : Sem) (env : Env) : MergeState :=
  mergeFiles (loadIgnoreList env.ignoreData) (fileRowsOf sem env)

/-- Retained rows right after `all_rows.sort(...)` (before vendor-alias
normalization and categorization). -/
def sortedRowsOf (sem : Sem) (env : Env) : List Row :=
  sortRows (mergedStateOf sem env).allRows

def aliasTableOf (env : Env) : List (Str × Str) := loadVendorAliases env.aliasData

def aliasKeysOf (env : Env) : List Str :=
  sortByLenDesc ((aliasTableOf env).map (fun kv => kv.1))

/-- The normalize-then-categorize step applied to one sorted row. -/
def finishRow (c : Classifier) (env : Env) (r : Row) : Row × Str × Str :=
  let r' := { r with description := normalizeDescription (aliasKeysOf env) (aliasTableOf env) r.description }
  (r', categorize c r'.description)

/-- Everything `main` emits for one run (`audit.json` counters plus the
canonical row list with its assigned category); `sources` lists each row's
provenance tag in emission order, from which the per-tier counters of
`audit.json` are the counts of each tag. -/
structure RunOutput where
  finalRows : List (Row × Str)
  sources : List Str
  totalCredits : ℚ
  totalDebits : ℚ
  duplicateCount : ℕ
  ignoredCount : ℕ
  filesProcessed : ℕ
  transactionCount : ℕ

/-- The body of `main` after the input checks: fit the classifier, merge and
dedup, sort, normalize descriptions, categorize, and assemble the outputs.
Returns the run output and the cache state left behind. -/
def runMerge (sem : Sem) (env : Env) : RunOutput × CacheState :=
  let cc := mkClassifier sem env
  let st := mergedStateOf sem env
  let finished := (sortedRowsOf sem env).map (finishRow cc.1 env)
  ({ finalRows := finished.map (fun rcs => (rcs.1, rcs.2.1))
     sources := finished.map (fun rcs => rcs.2.2)
     totalCredits := st.totalCredits
     totalDebits := st.totalDebits
     duplicateCount := st.duplicateCount
     ignoredCount := st.ignoredCount
     filesProcessed := env.files.length
     transactionCount := st.allRows.length }, cc.2)

/-- The input check of `main` that guards the merge: with no export files the
run aborts (`sys.exit(1)`) with a message and writes nothing.  (The earlier
exits — unset accounts dir, missing month folder, empty folder name — are
upstream of the modelled inputs.) -/
def runMain (sem : Sem) (env : Env) : Except Str (RunOutput × CacheState) :=
  if env.files = [] then
    Except.error (str "No " ++ env.filePattern ++ str " in that folder.")
  else
    Except.ok (runMerge sem env)

/- ------------------------------------------------------------------
   Helper lemmas
   ------------------------------------------------------------------ -/

/-- Two training lists with equal fingerprints are permutations of each
other (the sorted canonical forms coincide). -/
theorem trainingFingerprint_eq_perm {t t' : List (Str × Str)}
    (h : trainingFingerprint t = trainingFingerprint t') : t.Perm t' := by
  have h1 : t.Perm (trainingFingerprint t) := (List.perm_insertionSort pairLe t).symm
  have h2 : (trainingFingerprint t').Perm t' := List.perm_insertionSort pairLe t'
  rw [h] at h1
  exact h1.trans h2

/-- Running the fit step again on the cache state it left behind yields the
same model: a reused cache is reused again, and a freshly written artifact is
reused on the next identical run. -/
theorem fitML_rerun (train : List (Str × Str) → MLModel) (t : List (Str × Str))
    (c : CacheState) :
    (fitML train t (fitML train t c).cacheAfter).mlModel = (fitML train t c).mlModel := by
  unfold fitML
  by_cases h1 : t.length < MIN_TRAINING_SAMPLES
  · simp [h1]
  by_cases h2 : distinctClasses t < 2
  · simp [h1, h2]
  rw [if_neg h1, if_neg h2]
  match c with
  | none => simp [h1, h2]
  | some none => simp [h1, h2]
  | some (some a) =>
    by_cases hfp : a.storedFingerprint = trainingFingerprint t
    · simp [h1, h2, hfp]
    · simp [h1, h2, hfp]

/-- Pre-filtering by `p` does not change a `filterMap` that returns `none`
outside `p`. -/
theorem filterMap_filter_of_none {α β : Type} (p : α → Bool) (g : α → Option β)
    (hg : ∀ x, p x = false → g x = none) (l : List α) :
    (l.filter p).filterMap g = l.filterMap g := by
  induction l with
  | nil => rfl
  | cons x xs ih =>
    by_cases hp : p x = true
    · simp only [List.filter_cons, hp, if_true, List.filterMap_cons, ih]
    · have hp' : p x = false := by revert hp; cases p x <;> simp
      simp only [List.filter_cons, hp', Bool.false_eq_true, if_false, List.filterMap_cons,
        hg x hp', ih]

/-- The historical training data never reads the current month folder: it is
a function of the other folders only. -/
theorem loadHistorical_eq_filter (pm : Str → Option ℤ) (cur : Str) (folders : List HistFolder) :
    loadHistoricalTrainingData pm cur folders =
    loadHistoricalTrainingData pm cur (folders.filter (fun f => decide (f.name ≠ cur))) := by
  unfold loadHistoricalTrainingData
  rw [filterMap_filter_of_none]
  intro f hf
  have hc : f.name = cur := by
    by_contra hc
    simp [hc] at hf
  simp [hc]

instance : IsTotal Row rowLe := ⟨fun a b => by
  unfold rowLe
  rcases lt_trichotomy a.date b.date with h | h | h
  · exact Or.inl (Or.inl h)
  · rcases le_total a.description b.description with hd | hd
    · exact Or.inl (Or.inr ⟨h, hd⟩)
    · exact Or.inr (Or.inr ⟨h.symm, hd⟩)
  · exact Or.inr (Or.inl h)⟩

instance : IsTrans Row rowLe := ⟨fun a b c hab hbc => by
  unfold rowLe at hab hbc ⊢
  rcases hab with h1 | ⟨h1e, h1d⟩ <;> rcases hbc with h2 | ⟨h2e, h2d⟩
  · exact Or.inl (h1.trans h2)
  · exact Or.inl (lt_of_lt_of_le h1 (le_of_eq h2e))
  · exact Or.inl (lt_of_le_of_lt (le_of_eq h1e) h2)
  · exact Or.inr ⟨h1e.trans h2e, h1d.trans h2d⟩⟩

/-- Per-row effect on the running totals: ignored rows leave them unchanged,
every other row adds its credit and debit before any duplicate check. -/
theorem processRow_totals (il : List Str) (fileIdx : ℕ) (st : MergeState) (r : Row) :
    (processRow il fileIdx st r).totalCredits =
      (if shouldIgnore il r.description then st.totalCredits else st.totalCredits + r.credit)
    ∧ (processRow il fileIdx st r).totalDebits =
      (if shouldIgnore il r.description then st.totalDebits else st.totalDebits + r.debit) := by
  unfold processRow
  by_cases h : shouldIgnore il r.description
  · simp [h]
  · simp only [h, Bool.false_eq_true, if_false]
    split_ifs <;> simp

/-- Totals accumulated over one file's row loop. -/
theorem foldl_totals (il : List Str) (fileIdx : ℕ) (rows : List Row) :
    ∀ st : MergeState,
      (rows.foldl (processRow il fileIdx) st).totalCredits =
        st.totalCredits + ((rows.filter (fun r => ! shouldIgnore il r.description)).map
          (fun r => r.credit)).sum
    ∧ (rows.foldl (processRow il fileIdx) st).totalDebits =
        st.totalDebits + ((rows.filter (fun r => ! shouldIgnore il r.description)).map
          (fun r => r.debit)).sum := by
  induction rows with
  | nil => intro st; simp
  | cons r rows ih =>
    intro st
    by_cases h : shouldIgnore il r.description
    · have hc := (processRow_totals il fileIdx st r).1
      have hd := (processRow_totals il fileIdx st r).2
      rw [if_pos h] at hc hd
      simp only [List.foldl_cons, List.filter_cons, h, Bool.not_true, Bool.false_eq_true,
        if_false]
      exact ⟨by rw [(ih (processRow il fileIdx st r)).1, hc],
             by rw [(ih (processRow il fileIdx st r)).2, hd]⟩
    · have hc := (processRow_totals il fileIdx st r).1
      have hd := (processRow_totals il fileIdx st r).2
      rw [if_neg h] at hc hd
      have hb : shouldIgnore il r.description = false := by
        revert h; cases shouldIgnore il r.description <;> simp
      simp only [List.foldl_cons, List.filter_cons, hb, Bool.not_false, if_true,
        List.map_cons, List.sum_cons]
      exact ⟨by rw [(ih (processRow il fileIdx st r)).1, hc, add_assoc],
             by rw [(ih (processRow il fileIdx st r)).2, hd, add_assoc]⟩

/-- Totals accumulated over the whole file loop. -/
theorem mergeFilesFrom_totals (il : List Str) (files : List (List Row)) :
    ∀ (fileIdx : ℕ) (st : MergeState),
      (mergeFilesFrom il fileIdx st files).totalCredits =
        st.totalCredits + ((files.flatMap (fun rows =>
          rows.filter (fun r => ! shouldIgnore il r.description))).map (fun r => r.credit)).sum
    ∧ (mergeFilesFrom il fileIdx st files).totalDebits =
        st.totalDebits + ((files.flatMap (fun rows =>
          rows.filter (fun r => ! shouldIgnore il r.description))).map (fun r => r.debit)).sum := by
  induction files with
  | nil => intro i st; simp [mergeFilesFrom]
  | cons rows rest ih =>
    intro i st
    have hf := foldl_totals il i rows { st with seenInFile := [] }
    simp only [mergeFilesFrom, List.flatMap_cons, List.map_append, List.sum_append]
    constructor
    · rw [(ih (i + 1) _).1]
      unfold processFile
      rw [hf.1, add_assoc]
    · rw [(ih (i + 1) _).2]
      unfold processFile
      rw [hf.2, add_assoc]

/- ------------------------------------------------------------------
   Concrete instances used by witnesses and counterexamples
   ------------------------------------------------------------------ -/

/-- A trivial external-library semantics: `search` never matches (this agrees
with `re.search` on every (pattern, description) pair actually exercised
below: none of the built-in patterns nor the transfer fallback matches the
descriptions used, such as `"ZZQQ"`); `parseFloat`/`parseMonth` always fail;
`train` produces a model that never answers confidently. -/
def semTriv : Sem :=
  { search := fun _ _ => false, parseFloat := fun _ => none,
    parseMonth := fun _ => none, train := fun _ => ⟨fun _ => ([], 0)⟩ }

/-- Classifier for the C1 witness: one mapping entry, built-in rules, no ML. -/
def cW1 : Classifier :=
  { customMapping := [(str "COFFEE", str "Food & Drink")],
    mappingKeysSorted := [str "COFFEE"],
    regexRules := BUILTIN_CATEGORY_RULES, allCategories := BUILTIN_ALL_CATEGORIES,
    mlModel := none, thresholdParsed := none, search := fun _ _ => false }

/-- Row for the C2 witness. -/
def rowW2 : Row :=
  { date := str "2025-12-01", description := str "COFFEE SHOP", debit := 5, credit := 0,
    amount := 5, account := str "chequing", source := str "cibc1" }

/-- Model for the C3 witness: predicts with probability exactly 0, the
configured threshold. -/
def mW3 : MLModel := ⟨fun _ => (str "Health", 0)⟩

/-- Classifier for the C3 witness: threshold setting `"0"` (clamped to 0),
prediction confidence exactly at the threshold. -/
def cW3 : Classifier :=
  { customMapping := [], mappingKeysSorted := [],
    regexRules := BUILTIN_CATEGORY_RULES, allCategories := BUILTIN_ALL_CATEGORIES,
    mlModel := some mW3, thresholdParsed := some 0, search := fun _ _ => false }

/-- Ten-example, two-class training corpus for the C4 witness. -/
def tW4 : List (Str × Str) :=
  [ (str "a0", str "X"), (str "a1", str "X"), (str "a2", str "X"), (str "a3", str "X"),
    (str "a4", str "X"), (str "a5", str "X"), (str "a6", str "X"), (str "a7", str "X"),
    (str "a8", str "Y"), (str "a9", str "Y") ]

/-- The same corpus with a single example's label changed. -/
def tW4' : List (Str × Str) :=
  [ (str "a0", str "X"), (str "a1", str "X"), (str "a2", str "X"), (str "a3", str "X"),
    (str "a4", str "X"), (str "a5", str "X"), (str "a6", str "X"), (str "a7", str "X"),
    (str "a8", str "Y"), (str "a9", str "X") ]

/-- An arbitrary cached model artifact body for the C4 witness. -/
def mW4 : MLModel := ⟨fun _ => (str "X", 1)⟩

/-- Environment with one export file of two rows and a vendor alias that
rewrites the lexically smaller description to a lexically larger one. -/
def envC9 : Env :=
  { currentFolder := str "DECEMBER 2025", filePattern := str "cibc*.csv",
    files := [(str "cibc1", [[str "2025-01-01", str "AAA"], [str "2025-01-01", str "BBB"]])],
    cols := defaultCols, mappingData := [], regexRules := BUILTIN_CATEGORY_RULES,
    allCategories := BUILTIN_ALL_CATEGORIES, ignoreData := [],
    aliasData := [(str "AAA", str "ZZZ")], thresholdParsed := none,
    histFolders := [], cache := none }

/-- Historical folders for the C5 witness: the current month folder now has a
`merged.csv` (as it does after the first run), other folders unchanged. -/
def histW5 : List HistFolder :=
  [⟨str "DECEMBER 2025", [(str "COFFEE", str "Food & Drink")]⟩]

/-- Environment with an empty export-file list. -/
def envC6 : Env :=
  { currentFolder := str "DECEMBER 2025", filePattern := str "cibc*.csv",
    files := [], cols := defaultCols, mappingData := [],
    regexRules := BUILTIN_CATEGORY_RULES, allCategories := BUILTIN_ALL_CATEGORIES,
    ignoreData := [], aliasData := [], thresholdParsed := none,
    histFolders := [], cache := none }

/-- Environment for the C6 witness (a different file pattern, also empty). -/
def envW6 : Env := { envC6 with filePattern := str "export*.csv" }

/-- Classifier for the C7 counterexample: nothing matches in tiers 1 and 2,
and the model confidently predicts a configured category. -/
def cC7 : Classifier :=
  { customMapping := [], mappingKeysSorted := [],
    regexRules := BUILTIN_CATEGORY_RULES, allCategories := BUILTIN_ALL_CATEGORIES,
    mlModel := some ⟨fun _ => (str "Health", 1)⟩, thresholdParsed := some 0,
    search := fun _ _ => false }

/- ------------------------------------------------------------------
   C1 — waterfall precedence and provenance
   ------------------------------------------------------------------ -/

/-- C1: for every non-blank description the three tiers are consulted in
strict precedence order with no backtracking: a custom-mapping hit decides
the category with provenance `"mapping"` regardless of the regex rules or
the ML model; with no mapping hit, a decisive regex tier decides with
provenance `"regex"` regardless of the ML model, where inside the regex tier
the first matching configured rule wins and the transfer fallback is tried
only once the configured list is exhausted; with both higher tiers
indecisive, an accepted statistical prediction decides with provenance
`"ml"`; and with all three indecisive the result is `"Uncategorized"` with
provenance `"uncategorized"`. -/
theorem categorize_waterfall_precedence (c : Classifier) (d : Str)
    (hb : isBlank d = false) :
    (∀ cat, mappingFirstMatch c.customMapping c.mappingKeysSorted d = some cat →
       ∀ rules model,
         categorize { c with regexRules := rules, mlModel := model } d = (cat, SOURCE_MAPPING))
  ∧ (∀ cat, mappingFirstMatch c.customMapping c.mappingKeysSorted d = none →
       regexCategory c d = cat → cat ≠ UNCATEGORIZED →
       ∀ model, categorize { c with mlModel := model } d = (cat, SOURCE_REGEX))
  ∧ (∀ pc, c.regexRules.find? (fun q => c.search q.1 d) = some pc → regexCategory c d = pc.2)
  ∧ (c.regexRules.find? (fun q => c.search q.1 d) = none →
       regexCategory c d =
         (if c.search TRANSFER_FALLBACK.1 d then TRANSFER_FALLBACK.2 else UNCATEGORIZED))
  ∧ (∀ p conf, mappingFirstMatch c.customMapping c.mappingKeysSorted d = none →
       regexCategory c d = UNCATEGORIZED → predictML c d = some (p, conf) →
       categorize c d = (p, SOURCE_ML))
  ∧ (mappingFirstMatch c.customMapping c.mappingKeysSorted d = none →
       regexCategory c d = UNCATEGORIZED → predictML c d = none →
       categorize c d = (UNCATEGORIZED, SOURCE_UNCATEGORIZED)) := by
  refine ⟨?_, ?_, ?_, ?_, ?_, ?_⟩
  · intro cat hm rules model
    unfold categorize
    simp only [hb, Bool.false_eq_true, if_false]
    simp [hm]
  · intro cat hm hr hne model
    have hr' : regexCategory { c with mlModel := model } d = cat := by
      unfold regexCategory at hr ⊢; exact hr
    unfold categorize
    simp [hb, hm, hr', hne]
  · intro pc hfind
    unfold regexCategory
    simp [hb, hfind]
  · intro hfind
    unfold regexCategory
    simp [hb, hfind]
  · intro p conf hm hr hp
    unfold categorize
    simp [hb, hm, hr, hp]
  · intro hm hr hp
    unfold categorize
    simp [hb, hm, hr, hp]

/-- Witness for C1: the mapping entry `"COFFEE" → "Food & Drink"` decides
`"CIBC COFFEE SHOP"` with provenance `"mapping"`. -/
theorem categorize_waterfall_precedence_witness :
    categorize { cW1 with regexRules := BUILTIN_CATEGORY_RULES, mlModel := none }
      (str "CIBC COFFEE SHOP") = (str "Food & Drink", SOURCE_MAPPING) :=
  (categorize_waterfall_precedence cW1 (str "CIBC COFFEE SHOP") (by decide)).1
    (str "Food & Drink") (by decide) BUILTIN_CATEGORY_RULES none

/- ------------------------------------------------------------------
   C2 — merge dedup row cases
   ------------------------------------------------------------------ -/

/-- C2: for every non-ignored row in the merge loop: a key already seen
earlier in the same file drops the row and increments the duplicate counter
(leaving rows, the key map and the per-file set unchanged); a key claimed by
a different file index likewise drops the row with the counter incremented;
otherwise the key is claimed for the current file index and the row is
retained with the counter unchanged.  In particular two identical rows within
one file collapse to one retained record with `duplicate_count` up by exactly
one. -/
theorem merge_dedup_row_cases (il : List Str) (fileIdx : ℕ) (st : MergeState) (r : Row)
    (hni : shouldIgnore il r.description = false) :
    (rowKey r ∈ st.seenInFile →
       (processRow il fileIdx st r).allRows = st.allRows
       ∧ (processRow il fileIdx st r).duplicateCount = st.duplicateCount + 1
       ∧ (processRow il fileIdx st r).keyToFiles = st.keyToFiles
       ∧ (processRow il fileIdx st r).seenInFile = st.seenInFile)
  ∧ (rowKey r ∉ st.seenInFile → st.keyToFiles (rowKey r) ≠ [] →
       fileIdx ∉ st.keyToFiles (rowKey r) →
       (processRow il fileIdx st r).allRows = st.allRows
       ∧ (processRow il fileIdx st r).duplicateCount = st.duplicateCount + 1)
  ∧ (rowKey r ∉ st.seenInFile →
       (st.keyToFiles (rowKey r) = [] ∨ fileIdx ∈ st.keyToFiles (rowKey r)) →
       (processRow il fileIdx st r).allRows = st.allRows ++ [r]
       ∧ (processRow il fileIdx st r).duplicateCount = st.duplicateCount
       ∧ fileIdx ∈ (processRow il fileIdx st r).keyToFiles (rowKey r))
  ∧ (st.keyToFiles (rowKey r) = [] →
       (processFile il fileIdx st [r, r]).allRows = st.allRows ++ [r]
       ∧ (processFile il fileIdx st [r, r]).duplicateCount = st.duplicateCount + 1) := by
  refine ⟨?_, ?_, ?_, ?_⟩
  · intro hseen
    unfold processRow
    simp [hni, hseen]
  · intro hseen hcl hnf
    unfold processRow
    simp [hni, hseen, hcl, hnf]
  · intro hseen hfree
    unfold processRow
    rcases hfree with h | h
    · simp [hni, hseen, h]
    · have hnc : ¬ (st.keyToFiles (rowKey r) ≠ [] ∧ fileIdx ∉ st.keyToFiles (rowKey r)) := by
        intro hc; exact hc.2 h
      simp [hni, hseen, hnc, h]
  · intro hfree
    unfold processFile
    simp only [List.foldl]
    unfold processRow
    simp [hni, hfree]

/-- Witness for C2: one file containing the same coffee-shop row twice yields
one retained record and exactly one counted duplicate. -/
theorem merge_dedup_row_cases_witness :
    (processFile [] 0 initMergeState [rowW2, rowW2]).allRows = [rowW2]
    ∧ (processFile [] 0 initMergeState [rowW2, rowW2]).duplicateCount = 1 := by
  have h := (merge_dedup_row_cases [] 0 initMergeState rowW2 (by decide)).2.2.2 rfl
  simpa using h

/- ------------------------------------------------------------------
   C3 — confidence gating
   ------------------------------------------------------------------ -/

/-- C3: the configured confidence threshold is clamped to `[0,1]` and
defaults to `0.70` (both for the default setting `"0.70"` and for a
malformed one); a tier-3 prediction is accepted only when its top
probability strictly exceeds the threshold, a probability exactly at the
threshold is rejected, and with tiers 1 and 2 indecisive a rejected
prediction makes the transaction fall through to `"Uncategorized"`. -/
theorem ml_confidence_gate :
    (∀ parsed, 0 ≤ mlThreshold parsed ∧ mlThreshold parsed ≤ 1)
  ∧ (mlThreshold (some (7/10)) = 7/10 ∧ mlThreshold none = 7/10)
  ∧ (∀ c d p conf, predictML c d = some (p, conf) → conf > mlThreshold c.thresholdParsed)
  ∧ (∀ c d m, c.mlModel = some m → (m.predict d).2 = mlThreshold c.thresholdParsed →
       predictML c d = none)
  ∧ (∀ c d, isBlank d = false →
       mappingFirstMatch c.customMapping c.mappingKeysSorted d = none →
       regexCategory c d = UNCATEGORIZED → predictML c d = none →
       categorize c d = (UNCATEGORIZED, SOURCE_UNCATEGORIZED)) := by
  refine ⟨?_, ?_, ?_, ?_, ?_⟩
  · intro parsed
    cases parsed with
    | none => norm_num [mlThreshold]
    | some v => exact ⟨le_max_left 0 _, max_le (by norm_num) (min_le_left 1 v)⟩
  · constructor
    · show max 0 (min 1 (7/10 : ℚ)) = 7/10
      rw [min_eq_right (by norm_num), max_eq_right (by norm_num)]
    · rfl
  · intro c d p conf h
    unfold predictML at h
    cases hm : c.mlModel with
    | none => rw [hm] at h; exact absurd h (by simp)
    | some m =>
      rw [hm] at h
      simp only at h
      split at h
      · rename_i hcond
        obtain ⟨h1, h2⟩ := hcond
        have hpc := Option.some.inj h
        rw [hpc] at h1
        exact h1
      · exact absurd h (by simp)
  · intro c d m hm heq
    unfold predictML
    rw [hm]
    simp only
    rw [if_neg]
    intro hcond
    exact absurd (heq ▸ hcond.1) (lt_irrefl _)
  · intro c d hb hm hr hp
    unfold categorize
    simp [hb, hm, hr, hp]

/-- Witness for C3: with the threshold configured as `0` and a model whose
top probability is exactly `0`, the prediction is rejected and the
transaction is emitted as `"Uncategorized"`. -/
theorem ml_confidence_gate_witness :
    predictML cW3 (str "ZZQQ") = none
    ∧ categorize cW3 (str "ZZQQ") = (UNCATEGORIZED, SOURCE_UNCATEGORIZED) := by
  have h4 := ml_confidence_gate.2.2.2.1 cW3 (str "ZZQQ") mW3 rfl (by decide)
  exact ⟨h4, ml_confidence_gate.2.2.2.2 cW3 (str "ZZQQ") (by decide) (by decide) (by decide) h4⟩

/- ------------------------------------------------------------------
   C4 — training fingerprint and cache behavior
   ------------------------------------------------------------------ -/

/-- C4: with an eligible training corpus, a well-shaped cached artifact whose
stored fingerprint equals the current fingerprint is reused verbatim (the
result does not mention the training function, so no refit happens, and the
cache file is left untouched); an unreadable or invalid artifact is a cache
miss and retraining proceeds (the step is total — the run never fails hard);
a fingerprint mismatch likewise retrains; and changing the training multiset
in any way (in particular changing a single example) changes the fingerprint
and forces retraining against a cache written for the old corpus.  The
fingerprint is the hash of the sorted training-example set, modelled here by
the sorted list itself (SHA-256 idealized as collision-free). -/
theorem training_cache_fingerprint :
    (∀ (train : List (Str × Str) → MLModel) training (a : CacheArtifact),
       ¬ training.length < MIN_TRAINING_SAMPLES → ¬ distinctClasses training < 2 →
       a.storedFingerprint = trainingFingerprint training →
       fitML train training (some (some a)) = ⟨some a.vectorizerModel, some (some a)⟩)
  ∧ (∀ (train : List (Str × Str) → MLModel) training,
       ¬ training.length < MIN_TRAINING_SAMPLES → ¬ distinctClasses training < 2 →
       fitML train training (some none) =
         ⟨some (train training), some (some ⟨trainingFingerprint training, train training⟩)⟩)
  ∧ (∀ (train : List (Str × Str) → MLModel) training (a : CacheArtifact),
       ¬ training.length < MIN_TRAINING_SAMPLES → ¬ distinctClasses training < 2 →
       a.storedFingerprint ≠ trainingFingerprint training →
       fitML train training (some (some a)) =
         ⟨some (train training), some (some ⟨trainingFingerprint training, train training⟩)⟩)
  ∧ (∀ (train : List (Str × Str) → MLModel) (t t' : List (Str × Str)) (m : MLModel),
       ¬ t.Perm t' →
       ¬ t'.length < MIN_TRAINING_SAMPLES → ¬ distinctClasses t' < 2 →
       fitML train t' (some (some ⟨trainingFingerprint t, m⟩)) =
         ⟨some (train t'), some (some ⟨trainingFingerprint t', train t'⟩)⟩) := by
  refine ⟨?_, ?_, ?_, ?_⟩
  · intro train training a hlen hcls hfp
    unfold fitML
    rw [if_neg hlen, if_neg hcls]
    simp [hfp]
  · intro train training hlen hcls
    unfold fitML
    rw [if_neg hlen, if_neg hcls]
  · intro train training a hlen hcls hfp
    unfold fitML
    rw [if_neg hlen, if_neg hcls]
    simp [hfp]
  · intro train t t' m hne hlen hcls
    unfold fitML
    rw [if_neg hlen, if_neg hcls]
    simp only
    rw [if_neg]
    intro h
    exact hne (trainingFingerprint_eq_perm h)

/-- Witness for C4: a ten-example two-class corpus; its cache is reused on an
identical corpus and invalidated when a single example's label changes. -/
theorem training_cache_fingerprint_witness :
    fitML semTriv.train tW4 (some (some ⟨trainingFingerprint tW4, mW4⟩)) =
      ⟨some mW4, some (some ⟨trainingFingerprint tW4, mW4⟩)⟩
    ∧ fitML semTriv.train tW4' (some (some ⟨trainingFingerprint tW4, mW4⟩)) =
      ⟨some (semTriv.train tW4'),
       some (some ⟨trainingFingerprint tW4', semTriv.train tW4'⟩)⟩ := by
  constructor
  · exact training_cache_fingerprint.1 semTriv.train tW4 ⟨trainingFingerprint tW4, mW4⟩
      (by decide) (by decide) rfl
  · exact training_cache_fingerprint.2.2.2 semTriv.train tW4 tW4' mW4
      (by decide) (by decide) (by decide)

/- ------------------------------------------------------------------
   C5 — rerun produces identical output
   ------------------------------------------------------------------ -/

/-- C5: rerunning the merge on the identical export files with unchanged
configuration yields an identical canonical output (same row order, dedup
outcome and categories).  The second run is allowed to see the cache state
the first run left behind and a changed current-month folder (the first run
wrote `merged.csv` there); historical folders other than the current month
must be unchanged. -/
theorem merge_rerun_byte_identical (sem : Sem) (env : Env) (hist2 : List HistFolder)
    (hhist : hist2.filter (fun f => decide (f.name ≠ env.currentFolder)) =
             env.histFolders.filter (fun f => decide (f.name ≠ env.currentFolder))) :
    (runMerge sem { env with cache := (runMerge sem env).2, histFolders := hist2 }).1 =
    (runMerge sem env).1 := by
  have hhist' : loadHistoricalTrainingData sem.parseMonth env.currentFolder hist2 =
      loadHistoricalTrainingData sem.parseMonth env.currentFolder env.histFolders := by
    rw [loadHistorical_eq_filter sem.parseMonth env.currentFolder hist2,
        loadHistorical_eq_filter sem.parseMonth env.currentFolder env.histFolders, hhist]
  unfold runMerge mkClassifier mergedStateOf sortedRowsOf fileRowsOf
  dsimp only
  rw [hhist']
  rw [fitML_rerun]
  rfl

/-- Witness for C5: rerunning on the two-row environment after the first run
(which leaves a cache state and a `merged.csv` in the current month folder)
reproduces the first run's output. -/
theorem merge_rerun_byte_identical_witness :
    (runMerge semTriv { envC9 with cache := (runMerge semTriv envC9).2,
                                   histFolders := histW5 }).1 =
    (runMerge semTriv envC9).1 :=
  merge_rerun_byte_identical semTriv envC9 histW5 (by decide)

/- ------------------------------------------------------------------
   C6 — empty export-file list
   ------------------------------------------------------------------ -/

/-- Counterexample to C6 as stated: with an empty export-file list the run
does not produce empty output with zero totals — it is an error
(`sys.exit(1)` with the "No ... in that folder." message). -/
theorem empty_file_list_is_error :
    runMain semTriv envC6 = Except.error (str "No cibc*.csv in that folder.") := rfl

/-- C6 (amended): given an empty list of export files for a period, the run
fails with a human-readable error and writes no output (matching the
missing-required-input taxonomy), rather than producing an empty merge. -/
theorem empty_file_list_fatal (sem : Sem) (env : Env) (h : env.files = []) :
    runMain sem env =
      Except.error (str "No " ++ env.filePattern ++ str " in that folder.") := by
  unfold runMain
  simp [h]

/-- Witness for the amended C6. -/
theorem empty_file_list_fatal_witness :
    runMain semTriv envW6 =
      Except.error (str "No " ++ envW6.filePattern ++ str " in that folder.") :=
  empty_file_list_fatal semTriv envW6 rfl

/- ------------------------------------------------------------------
   C7 — provenance tag vocabulary
   ------------------------------------------------------------------ -/

/-- Counterexample to C7 as stated: a statistical-tier decision carries the
provenance tag `"ml"`, which is not in the claimed set
`{mapping, regex, statistical, uncategorized}`. -/
theorem ml_provenance_tag_not_statistical :
    (categorize cC7 (str "ZZQQ")).2 = SOURCE_ML
    ∧ SOURCE_ML ∉ [str "mapping", str "regex", str "statistical", str "uncategorized"] := by
  constructor <;> decide

/-- C7 (amended): every classification result's provenance tag is drawn from
exactly the set `{mapping, regex, ml, uncategorized}` (the statistical tier's
tag is the literal `"ml"`, not `"statistical"`). -/
theorem provenance_tags_exhaustive (c : Classifier) (d : Str) :
    (categorize c d).2 ∈ [SOURCE_MAPPING, SOURCE_REGEX, SOURCE_ML, SOURCE_UNCATEGORIZED] := by
  unfold categorize
  dsimp only
  split
  · simp
  · split
    · simp
    · split
      · simp
      · split <;> simp

/- ------------------------------------------------------------------
   C8 — short-row skipping
   ------------------------------------------------------------------ -/

/-- Counterexample to C8 as stated: a two-field row has fewer fields than the
configured column mapping requires (the default account column is index 4,
needing five fields), yet it is retained, not skipped — only the date and
description columns are required. -/
theorem short_row_retained_when_date_desc_present :
    (readBankCsv (fun _ => none) (str "cibc1") defaultCols
        [[str "2025-01-01", str "STORE"]]).length = 1
    ∧ [str "2025-01-01", str "STORE"].length < defaultCols.accountCol + 1 := by
  constructor <;> decide

/-- C8 (amended): a row is skipped silently exactly when it has too few
fields for the date and description columns (`len(row) <= max(desc, date)`);
such a row contributes nothing (so it is neither retained nor counted as a
duplicate) and the reader never aborts; a row with those two columns present
is retained even when the debit/credit/account indices are out of range
(those fields default to zero / empty). -/
theorem row_skip_requires_date_desc_only (pf : Str → Option ℚ) (name : Str) (cols : Cols)
    (row : List Str) (rest : List (List Str)) :
    (row.length ≤ max cols.descCol cols.dateCol →
       readBankCsv pf name cols (row :: rest) = readBankCsv pf name cols rest)
  ∧ (¬ row.length ≤ max cols.descCol cols.dateCol →
       ∃ r, readBankCsv pf name cols (row :: rest) = r :: readBankCsv pf name cols rest) := by
  constructor
  · intro h
    unfold readBankCsv
    rw [List.filterMap_cons, if_pos h]
  · intro h
    unfold readBankCsv
    rw [List.filterMap_cons]
    simp only [h, Bool.false_eq_true, if_false]
    exact ⟨_, rfl⟩

/-- Witness for the amended C8: a one-field row is skipped and a two-field
row is kept under the default column mapping. -/
theorem row_skip_requires_date_desc_only_witness :
    readBankCsv (fun _ => none) (str "cibc1") defaultCols
        ([str "2025-01-01"] :: [[str "2025-01-01", str "STORE"]]) =
      readBankCsv (fun _ => none) (str "cibc1") defaultCols [[str "2025-01-01", str "STORE"]]
    ∧ ∃ r, readBankCsv (fun _ => none) (str "cibc1") defaultCols
        ([str "2025-01-01", str "STORE"] :: []) =
      r :: readBankCsv (fun _ => none) (str "cibc1") defaultCols [] := by
  constructor
  · exact (row_skip_requires_date_desc_only (fun _ => none) (str "cibc1") defaultCols
      [str "2025-01-01"] [[str "2025-01-01", str "STORE"]]).1 (by decide)
  · exact (row_skip_requires_date_desc_only (fun _ => none) (str "cibc1") defaultCols
      [str "2025-01-01", str "STORE"] []).2 (by decide)

/- ------------------------------------------------------------------
   C9 — sort order of the emitted table
   ------------------------------------------------------------------ -/

/-- Counterexample to C9 as stated: sorting happens before vendor-alias
normalization, so with an alias `"AAA" → "ZZZ"` the emitted table's
(Date, Description) pairs are `("2025-01-01","ZZZ")` followed by
`("2025-01-01","BBB")`, and the first is not ≤ the second. -/
theorem emitted_order_broken_by_alias :
    ((runMerge semTriv envC9).1.finalRows.map (fun rc => (rc.1.date, rc.1.description)))
      = [(str "2025-01-01", str "ZZZ"), (str "2025-01-01", str "BBB")]
    ∧ ¬ pairLe (str "2025-01-01", str "ZZZ") (str "2025-01-01", str "BBB") := by
  constructor <;> decide

/-- C9 (amended): after the merge the retained records are sorted lexically
by (date, description as read from the file) — every record's key pair is ≤
the next one at that stage — and the emitted canonical table is exactly that
sorted sequence, in that order, with each description rewritten by the
vendor-alias normalization and a category attached afterwards; the emitted
pairs themselves need not be ordered once an alias rewrites a description. -/
theorem rows_sorted_before_normalization (sem : Sem) (env : Env) :
    List.Pairwise rowLe (sortedRowsOf sem env)
    ∧ (runMerge sem env).1.finalRows =
        (sortedRowsOf sem env).map
          (fun r => ((finishRow (mkClassifier sem env).1 env r).1,
                     (finishRow (mkClassifier sem env).1 env r).2.1)) := by
  constructor
  · exact List.sorted_insertionSort rowLe _
  · unfold runMerge
    dsimp only
    rw [List.map_map]
    rfl

/- ------------------------------------------------------------------
   C10 — totals include duplicates, exclude ignored rows
   ------------------------------------------------------------------ -/

/-- C10: the reported `total_credits` and `total_debits` are the sums of the
credit resp. debit amounts of every non-ignored row read from the export
files — rows later dropped as within-file or cross-file duplicates are
included in the sums, while ignored rows are excluded. -/
theorem totals_include_duplicates_exclude_ignored (sem : Sem) (env : Env) :
    (runMerge sem env).1.totalCredits =
      (((fileRowsOf sem env).flatMap (fun rows =>
        rows.filter (fun r => ! shouldIgnore (loadIgnoreList env.ignoreData) r.description))).map
          (fun r => r.credit)).sum
    ∧ (runMerge sem env).1.totalDebits =
      (((fileRowsOf sem env).flatMap (fun rows =>
        rows.filter (fun r => ! shouldIgnore (loadIgnoreList env.ignoreData) r.description))).map
          (fun r => r.debit)).sum := by
  have h := mergeFilesFrom_totals (loadIgnoreList env.ignoreData) (fileRowsOf sem env) 0
    initMergeState
  unfold runMerge
  dsimp only
  constructor
  · show (mergedStateOf sem env).totalCredits = _
    unfold mergedStateOf mergeFiles
    rw [h.1]
    show (0 : ℚ) + _ = _
    rw [zero_add]
  · show (mergedStateOf sem env).totalDebits = _
    unfold mergedStateOf mergeFiles
    rw [h.2]
    show (0 : ℚ) + _ = _
    rw [zero_add]
